import Mathlib

/-!
Verification of the MixedGL vectorized Goldilocks field implementation
(src/src/field/goldilocks/arm_asm_impl.rs).

The batch type `MixedGL` packs 16 u64 lanes.  Every SIMD operation in the
source (`u64x4`/`u64x8` add, sub, simd_lt, select, simd_shuffle) acts
lane-wise, so we model one u64 lane as a `Nat` together with explicit
wrapping `% 2^64`, and a batch as a function `Fin 16 → Nat`.
-/

set_option maxHeartbeats 1000000
set_option maxRecDepth 4000

namespace Boojum

/-- GoldilocksField::ORDER, the Goldilocks prime p = 2^64 - 2^32 + 1. -/
def ORDER : Nat := 18446744069414584321

/-- 2^64, the modulus of wrapping 64-bit machine arithmetic. -/
def TWO64 : Nat := 18446744073709551616

/-- MixedGL::EPSILON = 2^32 - 1 = 2^64 mod p. -/
def EPSILON : Nat := 4294967295

theorem ORDER_eq : ORDER = 2 ^ 64 - 2 ^ 32 + 1 := by decide
theorem TWO64_eq : TWO64 = 2 ^ 64 := by decide
theorem EPSILON_eq : EPSILON = 2 ^ 32 - 1 := by decide

/-- The "additional reduction" step appearing in `add_assign_impl`,
`sub_assign_impl`, all `butterfly_*` variants and `to_reduced`:
`b_reduced = b + EPSILON` (wrapping), `cmp = b_reduced.simd_lt(EPSILON)`,
`cmp.select(b_reduced, b)`, on one u64 lane. -/
def reduceLane (b : Nat) : Nat :=
  if (b + EPSILON) % TWO64 < EPSILON then (b + EPSILON) % TWO64 else b

/-- One lane of `MixedGL::add_assign_impl`: reduce `b`, compute the wrapping
sum, then select `sum + EPSILON` (wrapping) when `sum_reduced < sum`
(`cmp0`) or `sum < a` (`cmp1`). -/
def addLane (a b : Nat) : Nat :=
  if ((a + reduceLane b) % TWO64 + EPSILON) % TWO64 < (a + reduceLane b) % TWO64
      ∨ (a + reduceLane b) % TWO64 < a
  then ((a + reduceLane b) % TWO64 + EPSILON) % TWO64
  else (a + reduceLane b) % TWO64

/-- One lane of `MixedGL::sub_assign_impl`: reduce `b`, compute the wrapping
difference `diff = a - b` and `diff_reduced = diff - EPSILON` (both
wrapping), then select `diff_reduced` when `a < b` (after reduction). -/
def subLane (a b : Nat) : Nat :=
  if a < reduceLane b
  then ((a + (TWO64 - reduceLane b)) % TWO64 + (TWO64 - EPSILON)) % TWO64
  else (a + (TWO64 - reduceLane b)) % TWO64

/-- One lane of `PrimeFieldLike::negate` for MixedGL: a zero lane is kept,
otherwise the lane is replaced by the wrapping difference `ORDER - a`. -/
def negateLane (a : Nat) : Nat :=
  if a = 0 then a else (ORDER + (TWO64 - a)) % TWO64

/-- The canonical Goldilocks sum ((a mod p) + (b mod p)) mod p. -/
def canonAdd (a b : Nat) : Nat := (a % ORDER + b % ORDER) % ORDER

/-- The canonical Goldilocks difference ((a mod p) - (b mod p)) mod p. -/
def canonSub (a b : Nat) : Nat := (a % ORDER + (ORDER - b % ORDER)) % ORDER

theorem reduceLane_eq (b : Nat) (hb : b < TWO64) : reduceLane b = b % ORDER := by
  unfold reduceLane
  unfold ORDER TWO64 EPSILON at *
  split <;> omega

theorem addLane_eq (a b : Nat) (ha : a < TWO64) (hb : b < TWO64) :
    addLane a b =
      if ORDER ≤ a + b % ORDER then a + b % ORDER - ORDER else a + b % ORDER := by
  unfold addLane
  rw [reduceLane_eq b hb]
  unfold ORDER TWO64 EPSILON at *
  split
  · rename_i h
    rcases h with h | h <;> split <;> omega
  · rename_i h
    rw [not_or] at h
    split <;> omega

theorem subLane_eq (a b : Nat) (ha : a < TWO64) (hb : b < TWO64) :
    subLane a b =
      if a < b % ORDER then a + ORDER - b % ORDER else a - b % ORDER := by
  unfold subLane
  rw [reduceLane_eq b hb]
  unfold ORDER TWO64 EPSILON at *
  split <;> omega

theorem addLane_bounds (a b : Nat) (ha : a < TWO64) (hb : b < TWO64) :
    addLane a b < TWO64 ∧ addLane a b % ORDER = canonAdd a b := by
  rw [addLane_eq a b ha hb]
  unfold canonAdd
  unfold ORDER TWO64 at *
  split <;> omega

theorem addLane_canonical (a b : Nat) (ha : a < ORDER) (hb : b < TWO64) :
    addLane a b = canonAdd a b := by
  rw [addLane_eq a b (by unfold ORDER TWO64 at *; omega) hb]
  unfold canonAdd
  unfold ORDER TWO64 at *
  split <;> omega

theorem subLane_bounds (a b : Nat) (ha : a < TWO64) (hb : b < TWO64) :
    subLane a b < TWO64 ∧ subLane a b % ORDER = canonSub a b := by
  rw [subLane_eq a b ha hb]
  unfold canonSub
  unfold ORDER TWO64 at *
  split <;> omega

theorem subLane_canonical (a b : Nat) (ha : a < ORDER) (hb : b < TWO64) :
    subLane a b = canonSub a b := by
  rw [subLane_eq a b (by unfold ORDER TWO64 at *; omega) hb]
  unfold canonSub
  unfold ORDER TWO64 at *
  split <;> omega

theorem negateLane_invol (a : Nat) (ha : a ≤ ORDER) :
    negateLane (negateLane a) = a % ORDER := by
  by_cases h0 : a = 0
  · subst h0
    decide
  · have h1 : negateLane a = (ORDER + (TWO64 - a)) % TWO64 := by
      unfold negateLane
      rw [if_neg h0]
    rw [h1]
    by_cases h2 : a = ORDER
    · subst h2
      decide
    · have h3 : (ORDER + (TWO64 - a)) % TWO64 = ORDER - a := by
        unfold ORDER TWO64 at *
        omega
      rw [h3]
      unfold negateLane
      rw [if_neg (by unfold ORDER at *; omega)]
      unfold ORDER TWO64 at *
      omega

/-- The vectorized batch type `MixedGL`, an aligned array of 16 u64 lanes
(`pub struct MixedGL(pub [GoldilocksField; 16])`), modelled as its 16 lane
values. -/
abbrev MixedGL := Fin 16 → Nat

/-- MixedGL::from_constant: splat one scalar into all 16 lanes. -/
def MixedGL.from_constant (a : Nat) : MixedGL := fun _ => a

/-- MixedGL::to_reduced: the canonicalizing reduction applied to each lane
(the source runs it on four u64x4 groups; the SIMD ops are lane-wise). -/
def MixedGL.to_reduced (x : MixedGL) : MixedGL := fun i => reduceLane (x i)

/-- MixedGL::add_assign_impl, lane-wise. -/
def MixedGL.add_assign_impl (x y : MixedGL) : MixedGL := fun i => addLane (x i) (y i)

/-- MixedGL::sub_assign_impl, lane-wise. -/
def MixedGL.sub_assign_impl (x y : MixedGL) : MixedGL := fun i => subLane (x i) (y i)

/-- PrimeFieldLike::negate for MixedGL, lane-wise. -/
def MixedGL.negate (x : MixedGL) : MixedGL := fun i => negateLane (x i)

/-- C1 (amended): for all 64-bit a and b, every lane of the vectorized
add_assign on the batches [a; 16] and [b; 16] stays below 2^64 and is
congruent modulo p to ((a mod p) + (b mod p)) mod p; when the left operand
a is canonical (a < p) the lane is bit-for-bit that canonical value. -/
theorem add_assign_batch (a b : Nat) (ha : a < TWO64) (hb : b < TWO64) :
    (∀ i : Fin 16,
        MixedGL.add_assign_impl (MixedGL.from_constant a) (MixedGL.from_constant b) i < TWO64 ∧
        MixedGL.add_assign_impl (MixedGL.from_constant a) (MixedGL.from_constant b) i % ORDER
          = canonAdd a b) ∧
    (a < ORDER → ∀ i : Fin 16,
        MixedGL.add_assign_impl (MixedGL.from_constant a) (MixedGL.from_constant b) i
          = canonAdd a b) :=
  ⟨fun _ => addLane_bounds a b ha hb, fun ha2 _ => addLane_canonical a b ha2 hb⟩

/-- C1 counterexample: at a = 2^64 - 1 and b = p - 1 (both below 2^64) the
vectorized add_assign lane is 2^64 - 2, which is not the canonical value
((a mod p) + (b mod p)) mod p = 2^32 - 3, refuting the claim as stated. -/
theorem add_assign_batch_cex :
    MixedGL.add_assign_impl (MixedGL.from_constant 18446744073709551615)
        (MixedGL.from_constant 18446744069414584320) 0 = 18446744073709551614 ∧
    canonAdd 18446744073709551615 18446744069414584320 = 4294967293 := by
  constructor <;> decide

/-- C1 witness: the amended theorem applied at a = 3, b = 5, lane 0. -/
theorem add_assign_batch_witness :
    (3 : Nat) < TWO64 ∧ (5 : Nat) < TWO64 ∧ (3 : Nat) < ORDER ∧
    MixedGL.add_assign_impl (MixedGL.from_constant 3) (MixedGL.from_constant 5) 0
      = canonAdd 3 5 :=
  ⟨by decide, by decide, by decide,
    (add_assign_batch 3 5 (by decide) (by decide)).2 (by decide) 0⟩

/-- C2 (amended): for all 64-bit a and b, every lane of the vectorized
sub_assign on the batches [a; 16] and [b; 16] (which reduces the right
operand and applies the branchless epsilon correction when the left operand
is smaller) stays below 2^64 and is congruent modulo p to
((a mod p) - (b mod p)) mod p; when the left operand a is canonical (a < p)
the lane is bit-for-bit that canonical value. -/
theorem sub_assign_batch (a b : Nat) (ha : a < TWO64) (hb : b < TWO64) :
    (∀ i : Fin 16,
        MixedGL.sub_assign_impl (MixedGL.from_constant a) (MixedGL.from_constant b) i < TWO64 ∧
        MixedGL.sub_assign_impl (MixedGL.from_constant a) (MixedGL.from_constant b) i % ORDER
          = canonSub a b) ∧
    (a < ORDER → ∀ i : Fin 16,
        MixedGL.sub_assign_impl (MixedGL.from_constant a) (MixedGL.from_constant b) i
          = canonSub a b) :=
  ⟨fun _ => subLane_bounds a b ha hb, fun ha2 _ => subLane_canonical a b ha2 hb⟩

/-- C2 counterexample: at a = 2^64 - 1 and b = 0 the vectorized sub_assign
lane is 2^64 - 1 itself, not the canonical ((a mod p) - 0) mod p = 2^32 - 2,
refuting the claim as stated. -/
theorem sub_assign_batch_cex :
    MixedGL.sub_assign_impl (MixedGL.from_constant 18446744073709551615)
        (MixedGL.from_constant 0) 0 = 18446744073709551615 ∧
    canonSub 18446744073709551615 0 = 4294967294 := by
  constructor <;> decide

/-- C2 witness: the amended theorem applied at a = 3, b = 5, lane 0. -/
theorem sub_assign_batch_witness :
    (3 : Nat) < TWO64 ∧ (5 : Nat) < TWO64 ∧ (3 : Nat) < ORDER ∧
    MixedGL.sub_assign_impl (MixedGL.from_constant 3) (MixedGL.from_constant 5) 0
      = canonSub 3 5 :=
  ⟨by decide, by decide, by decide,
    (sub_assign_batch 3 5 (by decide) (by decide)).2 (by decide) 0⟩

/-- C7 (amended): for batches whose lanes are at most p, double negation
equals lane-wise canonicalization (to_reduced), and negating the all-zero
batch gives the all-zero batch.  (On a lane strictly between p and 2^64
double negation returns the lane unchanged, not its canonical residue.) -/
theorem negate_negate (x : MixedGL) (hx : ∀ i, x i ≤ ORDER) :
    MixedGL.negate (MixedGL.negate x) = MixedGL.to_reduced x ∧
    MixedGL.negate (MixedGL.from_constant 0) = MixedGL.from_constant 0 := by
  constructor
  · funext i
    show negateLane (negateLane (x i)) = reduceLane (x i)
    rw [negateLane_invol (x i) (hx i),
      reduceLane_eq (x i) (by have := hx i; unfold ORDER TWO64 at *; omega)]
  · funext i
    rfl

/-- C7 counterexample: on the batch with every lane p + 1 (a non-canonical
lane), double negation returns p + 1 while canonicalization returns 1,
refuting the claim as stated. -/
theorem negate_negate_cex :
    MixedGL.negate (MixedGL.negate (MixedGL.from_constant (ORDER + 1))) 0 ≠
      MixedGL.to_reduced (MixedGL.from_constant (ORDER + 1)) 0 := by
  decide

/-- C7 witness: the amended theorem applied to the batch [5; 16]. -/
theorem negate_negate_witness :
    (∀ i : Fin 16, MixedGL.from_constant 5 i ≤ ORDER) ∧
    MixedGL.negate (MixedGL.negate (MixedGL.from_constant 5))
      = MixedGL.to_reduced (MixedGL.from_constant 5) :=
  ⟨by decide, (negate_negate (MixedGL.from_constant 5) (by decide)).1⟩

/-- C8 (confirmed): to_reduced forces every lane of an arbitrary batch into
the canonical range [0, p) while preserving each lane's residue modulo p. -/
theorem to_reduced_canonicalizes (x : MixedGL) (hx : ∀ i, x i < TWO64) :
    ∀ i, MixedGL.to_reduced x i < ORDER ∧
      MixedGL.to_reduced x i % ORDER = x i % ORDER := by
  intro i
  show reduceLane (x i) < ORDER ∧ reduceLane (x i) % ORDER = x i % ORDER
  rw [reduceLane_eq (x i) (hx i)]
  unfold ORDER
  omega

/-- C8 witness: the theorem applied to the batch [p + 5; 16] at lane 0. -/
theorem to_reduced_canonicalizes_witness :
    (∀ i : Fin 16, MixedGL.from_constant (ORDER + 5) i < TWO64) ∧
    (MixedGL.to_reduced (MixedGL.from_constant (ORDER + 5)) 0 < ORDER ∧
      MixedGL.to_reduced (MixedGL.from_constant (ORDER + 5)) 0 % ORDER
        = MixedGL.from_constant (ORDER + 5) 0 % ORDER) :=
  ⟨by decide, to_reduced_canonicalizes (MixedGL.from_constant (ORDER + 5)) (by decide) 0⟩

/-- Modelled from the spec: the scalar field type `GoldilocksField` and its
`mul_assign` are not part of this excerpt of the repository (src/ holds the
vectorized MixedGL code, whose `mul_assign_impl` calls the scalar
`GoldilocksField::mul_assign` on each lane).  Spec section 4.1: reduce the
128-bit product using the identity 2^64 ≡ ε (mod p): split the double-width
product into high and low 64-bit halves, combine as low + high·ε with carry
handling (folding each overflow past 2^64 back in as ε), followed by a
final conditional subtraction of p. -/
def GoldilocksField.mul_assign (a b : Nat) : Nat :=
  let lo := a * b % TWO64
  let hi := a * b / TWO64
  let t0 := lo + hi * EPSILON
  let t1 := t0 % TWO64 + t0 / TWO64 * EPSILON
  let t2 := t1 % TWO64 + t1 / TWO64 * EPSILON
  if ORDER ≤ t2 then t2 - ORDER else t2

/-- MixedGL::mul_assign_impl: the source loops `for i in 0..16` performing
`self.0[i].mul_assign(&other.0[i])` — scalar multiplication on each lane. -/
def MixedGL.mul_assign_impl (x y : MixedGL) : MixedGL :=
  fun i => GoldilocksField.mul_assign (x i) (y i)

/-- C9 (confirmed): the vectorized mul_assign equals the scalar field
multiplication applied independently to each of the 16 lane pairs. -/
theorem mul_assign_lanewise (x y : MixedGL) (i : Fin 16) :
    MixedGL.mul_assign_impl x y i = GoldilocksField.mul_assign (x i) (y i) := rfl

/-- Modelled from the spec: `GoldilocksField` and its equality operator are
outside src/; the spec (section 4.3) states that canonicalization is "used
before operations (equality, export) that require canonical form", so
scalar equality compares raw 64-bit representations.  `MixedGL` derives
PartialEq, comparing the 16 lane words. -/
def MixedGL.equals (x y : MixedGL) : Bool := decide (x = y)

/-- PrimeFieldLikeVectorized::is_zero: `self.0 == [GoldilocksField::ZERO; 16]`. -/
def MixedGL.is_zero (x : MixedGL) : Bool := decide (x = fun _ => 0)

/-- C10 (confirmed): equals holds iff all 16 lane words are identical as
64-bit integers, is_zero holds iff every lane word is exactly 0; the
all-zero batch and the all-p batch are congruent modulo p yet compare
unequal, and the batch with every lane p is not is_zero. -/
theorem equals_is_representation :
    (∀ x y : MixedGL, MixedGL.equals x y = true ↔ ∀ i, x i = y i) ∧
    (∀ x : MixedGL, MixedGL.is_zero x = true ↔ ∀ i, x i = 0) ∧
    ORDER % ORDER = 0 % ORDER ∧
    MixedGL.equals (MixedGL.from_constant 0) (MixedGL.from_constant ORDER) = false ∧
    MixedGL.is_zero (MixedGL.from_constant ORDER) = false := by
  refine ⟨fun x y => ?_, fun x => ?_, by decide, by decide, by decide⟩
  · simp only [MixedGL.equals, decide_eq_true_eq]
    exact funext_iff
  · simp only [MixedGL.is_zero, decide_eq_true_eq]
    exact funext_iff

/-- Concatenation of two u64x8 halves into one 16-lane value (the memory
layout underlying `from_u64x8_arrays` and the 16-lane MixedGL). -/
def concat8 (a b : Fin 8 → Nat) : Fin 16 → Nat := fun j =>
  if h : (j : Nat) < 8 then a ⟨j, h⟩ else b ⟨(j : Nat) - 8, by omega⟩

/-- MixedGL::as_u64x8_arrays: the two u64x8 halves of a batch. -/
def MixedGL.as_u64x8_arrays (x : MixedGL) : (Fin 8 → Nat) × (Fin 8 → Nat) :=
  (fun i => x ⟨i, by omega⟩, fun i => x ⟨(i : Nat) + 8, by omega⟩)

/-- MixedGL::from_u64x8_arrays: rebuild a batch from its two u64x8 halves. -/
def MixedGL.from_u64x8_arrays (pr : (Fin 8 → Nat) × (Fin 8 → Nat)) : MixedGL :=
  concat8 pr.1 pr.2

/-- simd_shuffle over the concatenation of two u64x8 vectors with a constant
index vector. -/
def shuffle8 (a b : Fin 8 → Nat) (idx : Fin 8 → Fin 16) : Fin 8 → Nat :=
  fun i => concat8 a b (idx i)

/-- The add/sub core every butterfly variant performs on one (u, v) lane
pair.  The source reduces v once and reuses it for both the sum and the
difference; `reduceLane` being a pure function, that is exactly performing
`addLane` and `subLane` on the same operands. -/
def butterflyLane (a b : Nat) : Nat × Nat := (addLane a b, subLane a b)

def idx_u1 : Fin 8 → Fin 16 := ![0, 2, 4, 6, 8, 10, 12, 14]
def idx_v1 : Fin 8 → Fin 16 := ![1, 3, 5, 7, 9, 11, 13, 15]
def out1_a : Fin 8 → Fin 16 := ![0, 8, 1, 9, 2, 10, 3, 11]
def out1_b : Fin 8 → Fin 16 := ![4, 12, 5, 13, 6, 14, 7, 15]

def idx_u2 : Fin 8 → Fin 16 := ![0, 1, 4, 5, 8, 9, 12, 13]
def idx_v2 : Fin 8 → Fin 16 := ![2, 3, 6, 7, 10, 11, 14, 15]
def out2_a : Fin 8 → Fin 16 := ![0, 1, 8, 9, 2, 3, 10, 11]
def out2_b : Fin 8 → Fin 16 := ![4, 5, 12, 13, 6, 7, 14, 15]

def idx_u4 : Fin 8 → Fin 16 := ![0, 1, 2, 3, 8, 9, 10, 11]
def idx_v4 : Fin 8 → Fin 16 := ![4, 5, 6, 7, 12, 13, 14, 15]
def out4_a : Fin 8 → Fin 16 := ![0, 1, 2, 3, 8, 9, 10, 11]
def out4_b : Fin 8 → Fin 16 := ![4, 5, 6, 7, 12, 13, 14, 15]

/-- MixedGL::butterfly_1x1_impl: shuffle even/odd lanes into u and v, apply
the reduced add/sub, and interleave the results back. -/
def MixedGL.butterfly_1x1_impl (x : MixedGL) : MixedGL :=
  let parts := MixedGL.as_u64x8_arrays x
  let u := shuffle8 parts.1 parts.2 idx_u1
  let v := shuffle8 parts.1 parts.2 idx_v1
  let res1 : Fin 8 → Nat := fun i => (butterflyLane (u i) (v i)).1
  let res2 : Fin 8 → Nat := fun i => (butterflyLane (u i) (v i)).2
  MixedGL.from_u64x8_arrays (shuffle8 res1 res2 out1_a, shuffle8 res1 res2 out1_b)

/-- MixedGL::butterfly_2x2_impl: stride-2 variant. -/
def MixedGL.butterfly_2x2_impl (x : MixedGL) : MixedGL :=
  let parts := MixedGL.as_u64x8_arrays x
  let u := shuffle8 parts.1 parts.2 idx_u2
  let v := shuffle8 parts.1 parts.2 idx_v2
  let res1 : Fin 8 → Nat := fun i => (butterflyLane (u i) (v i)).1
  let res2 : Fin 8 → Nat := fun i => (butterflyLane (u i) (v i)).2
  MixedGL.from_u64x8_arrays (shuffle8 res1 res2 out2_a, shuffle8 res1 res2 out2_b)

/-- MixedGL::butterfly_4x4_impl: stride-4 variant. -/
def MixedGL.butterfly_4x4_impl (x : MixedGL) : MixedGL :=
  let parts := MixedGL.as_u64x8_arrays x
  let u := shuffle8 parts.1 parts.2 idx_u4
  let v := shuffle8 parts.1 parts.2 idx_v4
  let res1 : Fin 8 → Nat := fun i => (butterflyLane (u i) (v i)).1
  let res2 : Fin 8 → Nat := fun i => (butterflyLane (u i) (v i)).2
  MixedGL.from_u64x8_arrays (shuffle8 res1 res2 out4_a, shuffle8 res1 res2 out4_b)

/-- MixedGL::butterfly_8x8_impl: on two 8-lane memory regions, store the
reduced sums into the first and the reduced differences into the second. -/
def MixedGL.butterfly_8x8_impl (u v : Fin 8 → Nat) : (Fin 8 → Nat) × (Fin 8 → Nat) :=
  (fun i => (butterflyLane (u i) (v i)).1, fun i => (butterflyLane (u i) (v i)).2)

/-- MixedGL::butterfly_16x16_impl: two chained 8-lane butterflies over two
16-lane memory regions. -/
def MixedGL.butterfly_16x16_impl (u v : MixedGL) : MixedGL × MixedGL :=
  let r1 := MixedGL.butterfly_8x8_impl (MixedGL.as_u64x8_arrays u).1 (MixedGL.as_u64x8_arrays v).1
  let r2 := MixedGL.butterfly_8x8_impl (MixedGL.as_u64x8_arrays u).2 (MixedGL.as_u64x8_arrays v).2
  (MixedGL.from_u64x8_arrays (r1.1, r2.1), MixedGL.from_u64x8_arrays (r1.2, r2.2))

theorem idx_u1_arith : ∀ i : Fin 8, idx_u1 i = ⟨2 * (i : Nat), by omega⟩ := by decide

theorem idx_v1_arith : ∀ i : Fin 8, idx_v1 i = ⟨2 * (i : Nat) + 1, by omega⟩ := by decide

theorem out1_a_arith : ∀ i : Fin 8,
    out1_a i = ⟨(i : Nat) % 2 * 8 + (i : Nat) / 2, by omega⟩ := by decide

theorem out1_b_arith : ∀ i : Fin 8,
    out1_b i = ⟨(i : Nat) % 2 * 8 + 4 + (i : Nat) / 2, by omega⟩ := by decide

theorem idx_u2_arith : ∀ i : Fin 8,
    idx_u2 i = ⟨4 * ((i : Nat) / 2) + (i : Nat) % 2, by omega⟩ := by decide

theorem idx_v2_arith : ∀ i : Fin 8,
    idx_v2 i = ⟨4 * ((i : Nat) / 2) + (i : Nat) % 2 + 2, by omega⟩ := by decide

theorem out2_a_arith : ∀ i : Fin 8,
    out2_a i = ⟨(i : Nat) % 2 + (i : Nat) / 2 % 2 * 8 + (i : Nat) / 4 * 2, by omega⟩ := by
  decide

theorem out2_b_arith : ∀ i : Fin 8,
    out2_b i = ⟨(i : Nat) % 2 + (i : Nat) / 2 % 2 * 8 + (i : Nat) / 4 * 2 + 4, by omega⟩ := by
  decide

theorem idx_u4_arith : ∀ i : Fin 8,
    idx_u4 i = ⟨8 * ((i : Nat) / 4) + (i : Nat) % 4, by omega⟩ := by decide

theorem idx_v4_arith : ∀ i : Fin 8,
    idx_v4 i = ⟨8 * ((i : Nat) / 4) + (i : Nat) % 4 + 4, by omega⟩ := by decide

theorem out4_a_arith : ∀ i : Fin 8,
    out4_a i = ⟨8 * ((i : Nat) / 4) + (i : Nat) % 4, by omega⟩ := by decide

theorem out4_b_arith : ∀ i : Fin 8,
    out4_b i = ⟨8 * ((i : Nat) / 4) + (i : Nat) % 4 + 4, by omega⟩ := by decide

theorem butterfly_1x1_pairs (x : MixedGL) (i : Fin 8) :
    MixedGL.butterfly_1x1_impl x (idx_u1 i) = addLane (x (idx_u1 i)) (x (idx_v1 i)) ∧
    MixedGL.butterfly_1x1_impl x (idx_v1 i) = subLane (x (idx_u1 i)) (x (idx_v1 i)) := by
  obtain ⟨iv, hi⟩ := i
  interval_cases iv <;>
    refine ⟨?_, ?_⟩ <;>
      simp [MixedGL.butterfly_1x1_impl, MixedGL.from_u64x8_arrays, MixedGL.as_u64x8_arrays,
        shuffle8, concat8, butterflyLane, idx_u1_arith, idx_v1_arith, out1_a_arith,
        out1_b_arith, Fin.coe_ofNat_eq_mod]

theorem butterfly_2x2_pairs (x : MixedGL) (i : Fin 8) :
    MixedGL.butterfly_2x2_impl x (idx_u2 i) = addLane (x (idx_u2 i)) (x (idx_v2 i)) ∧
    MixedGL.butterfly_2x2_impl x (idx_v2 i) = subLane (x (idx_u2 i)) (x (idx_v2 i)) := by
  obtain ⟨iv, hi⟩ := i
  interval_cases iv <;>
    refine ⟨?_, ?_⟩ <;>
      simp [MixedGL.butterfly_2x2_impl, MixedGL.from_u64x8_arrays, MixedGL.as_u64x8_arrays,
        shuffle8, concat8, butterflyLane, idx_u2_arith, idx_v2_arith, out2_a_arith,
        out2_b_arith, Fin.coe_ofNat_eq_mod]

theorem butterfly_4x4_pairs (x : MixedGL) (i : Fin 8) :
    MixedGL.butterfly_4x4_impl x (idx_u4 i) = addLane (x (idx_u4 i)) (x (idx_v4 i)) ∧
    MixedGL.butterfly_4x4_impl x (idx_v4 i) = subLane (x (idx_u4 i)) (x (idx_v4 i)) := by
  obtain ⟨iv, hi⟩ := i
  interval_cases iv <;>
    refine ⟨?_, ?_⟩ <;>
      simp [MixedGL.butterfly_4x4_impl, MixedGL.from_u64x8_arrays, MixedGL.as_u64x8_arrays,
        shuffle8, concat8, butterflyLane, idx_u4_arith, idx_v4_arith, out4_a_arith,
        out4_b_arith, Fin.coe_ofNat_eq_mod]

theorem butterfly_8x8_pairs (u v : Fin 8 → Nat) (i : Fin 8) :
    (MixedGL.butterfly_8x8_impl u v).1 i = addLane (u i) (v i) ∧
    (MixedGL.butterfly_8x8_impl u v).2 i = subLane (u i) (v i) := by
  constructor <;> simp [MixedGL.butterfly_8x8_impl, butterflyLane]

theorem butterfly_16x16_pairs (u v : MixedGL) (i : Fin 16) :
    (MixedGL.butterfly_16x16_impl u v).1 i = addLane (u i) (v i) ∧
    (MixedGL.butterfly_16x16_impl u v).2 i = subLane (u i) (v i) := by
  obtain ⟨iv, hi⟩ := i
  interval_cases iv <;>
    refine ⟨?_, ?_⟩ <;>
      simp [MixedGL.butterfly_16x16_impl, MixedGL.butterfly_8x8_impl,
        MixedGL.from_u64x8_arrays, MixedGL.as_u64x8_arrays, concat8, butterflyLane,
        Fin.coe_ofNat_eq_mod]

theorem ORDER_lt_TWO64 : ORDER < TWO64 := by decide

/-- C3 (amended): for every supported stride variant (1, 2, 4, 8, 16) and
every operand pair of arbitrary 64-bit lanes whose left (u-side) lane is
canonical (below p), the butterfly primitive produces, elementwise and
canonically, the same results as computing u+v and u-v for that pair via
scalar field arithmetic modulo p — the right (v-side) lane may be any
64-bit value, including non-canonical ones, since the butterfly reduces it
first.  (Only the left restriction is forced by the counterexample: a
non-canonical left lane can make the output word leave [0, p).) -/
theorem butterfly_all_strides_canonical :
    (∀ x : MixedGL, (∀ j, x j < TWO64) → ∀ i : Fin 8,
      (x (idx_u1 i) < ORDER →
        MixedGL.butterfly_1x1_impl x (idx_u1 i) = canonAdd (x (idx_u1 i)) (x (idx_v1 i)) ∧
        MixedGL.butterfly_1x1_impl x (idx_v1 i) = canonSub (x (idx_u1 i)) (x (idx_v1 i))) ∧
      (x (idx_u2 i) < ORDER →
        MixedGL.butterfly_2x2_impl x (idx_u2 i) = canonAdd (x (idx_u2 i)) (x (idx_v2 i)) ∧
        MixedGL.butterfly_2x2_impl x (idx_v2 i) = canonSub (x (idx_u2 i)) (x (idx_v2 i))) ∧
      (x (idx_u4 i) < ORDER →
        MixedGL.butterfly_4x4_impl x (idx_u4 i) = canonAdd (x (idx_u4 i)) (x (idx_v4 i)) ∧
        MixedGL.butterfly_4x4_impl x (idx_v4 i) = canonSub (x (idx_u4 i)) (x (idx_v4 i)))) ∧
    (∀ u v : Fin 8 → Nat, (∀ j, u j < ORDER) → (∀ j, v j < TWO64) → ∀ i : Fin 8,
      (MixedGL.butterfly_8x8_impl u v).1 i = canonAdd (u i) (v i) ∧
      (MixedGL.butterfly_8x8_impl u v).2 i = canonSub (u i) (v i)) ∧
    (∀ u v : MixedGL, (∀ j, u j < ORDER) → (∀ j, v j < TWO64) → ∀ i : Fin 16,
      (MixedGL.butterfly_16x16_impl u v).1 i = canonAdd (u i) (v i) ∧
      (MixedGL.butterfly_16x16_impl u v).2 i = canonSub (u i) (v i)) := by
  refine ⟨fun x hx i => ⟨fun h1 => ⟨?_, ?_⟩, fun h2 => ⟨?_, ?_⟩, fun h4 => ⟨?_, ?_⟩⟩,
    fun u v hu hv i => ⟨?_, ?_⟩, fun u v hu hv i => ⟨?_, ?_⟩⟩
  · rw [(butterfly_1x1_pairs x i).1]
    exact addLane_canonical _ _ h1 (hx _)
  · rw [(butterfly_1x1_pairs x i).2]
    exact subLane_canonical _ _ h1 (hx _)
  · rw [(butterfly_2x2_pairs x i).1]
    exact addLane_canonical _ _ h2 (hx _)
  · rw [(butterfly_2x2_pairs x i).2]
    exact subLane_canonical _ _ h2 (hx _)
  · rw [(butterfly_4x4_pairs x i).1]
    exact addLane_canonical _ _ h4 (hx _)
  · rw [(butterfly_4x4_pairs x i).2]
    exact subLane_canonical _ _ h4 (hx _)
  · rw [(butterfly_8x8_pairs u v i).1]
    exact addLane_canonical _ _ (hu i) (hv i)
  · rw [(butterfly_8x8_pairs u v i).2]
    exact subLane_canonical _ _ (hu i) (hv i)
  · rw [(butterfly_16x16_pairs u v i).1]
    exact addLane_canonical _ _ (hu i) (hv i)
  · rw [(butterfly_16x16_pairs u v i).2]
    exact subLane_canonical _ _ (hu i) (hv i)

/-- C3 counterexample: with every u lane 2^64 - 1 and every v lane p - 1
(arbitrary 64-bit lane values, as the claim allows), the 8x8 butterfly's
sum output word is 2^64 - 2, not the canonical scalar result, refuting the
claim as stated. -/
theorem butterfly_all_strides_cex :
    (MixedGL.butterfly_8x8_impl (fun _ => 18446744073709551615)
        (fun _ => 18446744069414584320)).1 0
      ≠ canonAdd 18446744073709551615 18446744069414584320 := by
  decide

/-- C3 witness: the amended theorem's 8x8 case applied to the canonical
u batch [2; 8] and the non-canonical v batch [p + 1; 8] at lane 0,
exercising the arbitrary-64-bit right operand. -/
theorem butterfly_all_strides_canonical_witness :
    (MixedGL.butterfly_8x8_impl (fun _ => 2) (fun _ => ORDER + 1)).1 0
      = canonAdd 2 (ORDER + 1) ∧
    (MixedGL.butterfly_8x8_impl (fun _ => 2) (fun _ => ORDER + 1)).2 0
      = canonSub 2 (ORDER + 1) :=
  butterfly_all_strides_canonical.2.1 (fun _ => 2) (fun _ => ORDER + 1)
    (by intro j; show (2 : Nat) < ORDER; decide)
    (by intro j; show ORDER + 1 < TWO64; decide) 0

/-- The first 16 words of the literal 32-word array in the source's
test_mixedgl_butterfly16x16 regression test (the u half). -/
def testU : MixedGL :=
  ![0x0001000000000000, 0x0000000000000001, 0x0001000000000000, 0x0000000000000001,
    0x0000000000000000, 0xffffffff00000000, 0x0000000000000001, 0x0000ffffffffffff,
    0x0000000000000000, 0x0001000000000000, 0xffffffff00000000, 0xffffffff00000000,
    0xffffffff00000000, 0xfffeffff00000001, 0xfffeffff00000002, 0xfffeffff00000002]

/-- The next 16 words of the same literal test array (the v half). -/
def testV : MixedGL :=
  ![0x0000000000000000, 0xffffffff01000001, 0x0000000000000000, 0x0000010000ffff00,
    0xfffffeff00000101, 0xfffffffeff000001, 0x000000ffffffff00, 0xfffffeff01000101,
    0x0000000000000000, 0xfffffeff00000101, 0xfffffffeff000001, 0xffffffff01000001,
    0x000000fffeffff00, 0x0000000000000000, 0xffffffff01000001, 0x000000ffffffff00]

/-- C4 (amended): on the regression test's literal input halves, the
16-lane butterfly stores u[i] + v[i] at position i (the first buffer) and
u[i] - v[i] at position i + 16 (the second buffer), each reduced into
[0, p) — the claim as stated has the two destinations swapped. -/
theorem butterfly16x16_test : ∀ i : Fin 16,
    (MixedGL.butterfly_16x16_impl testU testV).1 i = canonAdd (testU i) (testV i) ∧
    (MixedGL.butterfly_16x16_impl testU testV).2 i = canonSub (testU i) (testV i) ∧
    (MixedGL.butterfly_16x16_impl testU testV).1 i < ORDER ∧
    (MixedGL.butterfly_16x16_impl testU testV).2 i < ORDER := by
  decide

/-- C4 counterexample: at index 1 the first output buffer (position 1 of
the 32-word layout) holds u[1] + v[1] = 16777217 rather than the claimed
u[1] - v[1] = p - 16777215 = 18446744069397807106, refuting the stated placement. -/
theorem butterfly16x16_test_cex :
    (MixedGL.butterfly_16x16_impl testU testV).1 1 = 16777217 ∧
    canonSub (testU 1) (testV 1) = 18446744069397807106 := by
  constructor <;> decide

/-- PrimeFieldLikeVectorized::SIZE_FACTOR: 16 scalars per batch. -/
def SIZE_FACTOR : Nat := 16

/-- One batch read from the head of a scalar buffer (the zero-copy
reinterpretation reads 16 consecutive scalars as one MixedGL). -/
def MixedGL.ofBase (l : List Nat) : MixedGL := fun i => l.getD i 0

/-- The batches of a scalar buffer: result_len = input.len() / 16 chunks of
16 consecutive scalars. -/
def chunks : Nat → List Nat → List MixedGL
  | 0, _ => []
  | n + 1, l => MixedGL.ofBase l :: chunks n (l.drop 16)

/-- PrimeFieldLikeVectorized::slice_from_base_slice: panics ("too small
input size to cast") when input.len() < SIZE_FACTOR, otherwise
reinterprets the buffer as input.len() / 16 batches.  (The 64-byte pointer
alignment debug assertion concerns machine addresses and has no content in
this value-level model.) -/
def slice_from_base_slice (input : List Nat) : Except String (List MixedGL) :=
  if input.length < SIZE_FACTOR then Except.error "too small input size to cast"
  else Except.ok (chunks (input.length / 16) input)

/-- PrimeFieldLikeVectorized::slice_into_base_slice: the batches laid out
back as input.len() * 16 scalars. -/
def slice_into_base_slice (input : List MixedGL) : List Nat :=
  (input.map fun x => List.ofFn x).flatten

/-- PrimeFieldLikeVectorized::vec_from_base_vec: the owning-buffer variant,
with the same "too small input size to cast" guard, reinterpreting the
buffer as len / SIZE_FACTOR batches. -/
def vec_from_base_vec (input : List Nat) : Except String (List MixedGL) :=
  if input.length < SIZE_FACTOR then Except.error "too small input size to cast"
  else Except.ok (chunks (input.length / SIZE_FACTOR) input)

theorem ofFn_ofBase (l : List Nat) (h : 16 ≤ l.length) :
    List.ofFn (MixedGL.ofBase l) = l.take 16 := by
  apply List.ext_getElem
  · simp
    omega
  · intro n h1 h2
    rw [List.getElem_ofFn, List.getElem_take]
    show l.getD n 0 = _
    rw [List.getD_eq_getElem l 0 (by simp at h1; omega)]

theorem chunks_flatten (n : Nat) (l : List Nat) (h : l.length = 16 * n) :
    slice_into_base_slice (chunks n l) = l := by
  induction n generalizing l with
  | zero =>
    have hl : l = [] := List.eq_nil_of_length_eq_zero (by omega)
    subst hl
    rfl
  | succ n ih =>
    show ((MixedGL.ofBase l :: chunks n (l.drop 16)).map fun x => List.ofFn x).flatten = l
    rw [List.map_cons, List.flatten_cons]
    show List.ofFn (MixedGL.ofBase l) ++ slice_into_base_slice (chunks n (l.drop 16)) = l
    rw [ofFn_ofBase l (by omega), ih (l.drop 16) (by simp; omega)]
    exact List.take_append_drop 16 l

/-- C5 (amended): for every scalar buffer of nonzero length a multiple of
16, converting scalar → vector → scalar is the identity (same length, same
elements).  A buffer of length 0 — also a multiple of 16 — instead hits
the "too small input size to cast" panic, so the claim's "every buffer" is
restricted to nonempty ones; the 64-byte alignment precondition concerns
machine addresses and has no content in this value-level model. -/
theorem slice_round_trip (input : List Nat) (h1 : input.length % 16 = 0)
    (h2 : input ≠ []) :
    Except.map slice_into_base_slice (slice_from_base_slice input)
      = Except.ok input := by
  have hlen : 16 ≤ input.length := by
    have := List.length_pos.mpr h2
    omega
  unfold slice_from_base_slice
  rw [if_neg (by unfold SIZE_FACTOR; omega)]
  show Except.ok (slice_into_base_slice (chunks (input.length / 16) input)) = _
  rw [chunks_flatten (input.length / 16) input (by omega)]

/-- C5 counterexample: the empty buffer has length a multiple of 16, yet
slice_from_base_slice panics on it instead of round-tripping, refuting the
claim as stated. -/
theorem slice_round_trip_cex :
    ([] : List Nat).length % 16 = 0 ∧
    Except.map slice_into_base_slice (slice_from_base_slice ([] : List Nat))
      ≠ Except.ok ([] : List Nat) := by
  refine ⟨rfl, ?_⟩
  intro hcon
  exact Except.noConfusion hcon

/-- C5 witness: the amended theorem applied to a buffer of 16 zeros. -/
theorem slice_round_trip_witness :
    (List.replicate 16 (0 : Nat)).length % 16 = 0 ∧
    Except.map slice_into_base_slice (slice_from_base_slice (List.replicate 16 (0 : Nat)))
      = Except.ok (List.replicate 16 (0 : Nat)) :=
  ⟨by decide, slice_round_trip (List.replicate 16 (0 : Nat)) (by decide) (by decide)⟩

/-- C6 (confirmed): a scalar buffer of length strictly below 16 makes both
slice_from_base_slice and vec_from_base_vec panic ("too small input size
to cast") rather than truncate or return an empty result. -/
theorem undersized_cast_fails (input : List Nat) (h : input.length < 16) :
    slice_from_base_slice input = Except.error "too small input size to cast" ∧
    vec_from_base_vec input = Except.error "too small input size to cast" :=
  ⟨if_pos h, if_pos h⟩

/-- C6 witness: the theorem applied to the three-element buffer [1, 2, 3]. -/
theorem undersized_cast_fails_witness :
    ([1, 2, 3] : List Nat).length < 16 ∧
    slice_from_base_slice [1, 2, 3] = Except.error "too small input size to cast" ∧
    vec_from_base_vec [1, 2, 3] = Except.error "too small input size to cast" :=
  ⟨by decide, undersized_cast_fails [1, 2, 3] (by decide)⟩

end Boojum
